import Mathlib

/-!
Shallow embedding of the `throome` Python SDK (src/sdk/python/src/throome/):
the transport wrapper `ThroomClient._request`, the typed facade methods the
testable properties of the specification talk about, and the SDK exception
hierarchy from `exceptions.py`.

Modelling conventions:
* JSON values are the inductive `Json` below; numbers are modelled as `Int`
  (every number any claim touches is an integer).
* An HTTP response is modelled by its status code, its raw body text
  (`content`, with `""` meaning an empty body, i.e. falsy `response.content`),
  and `json`, the result of JSON-parsing the body (`none` when the body is
  not valid JSON).  `json` stands for what `response.json()` would return;
  the pair (content, json) replaces running a JSON parser.
* Python exceptions are values of `PyError`: a class (a node of the real
  Python class hierarchy, `PyClass`), a message, and the `status_code`
  attribute that `ThroomAPIError.__init__` sets (absent, `none`, on every
  other class).  `requests.exceptions.JSONDecodeError` is a subclass of
  both `RequestException` and `ValueError` (requests >= 2.27).
* Fallible Python code is embedded as `Except PyError _`.
-/

inductive Json where
  | null : Json
  | bool : Bool → Json
  | num : Int → Json
  | str : String → Json
  | arr : List Json → Json
  | obj : List (String × Json) → Json
deriving Repr

namespace Json

/-- Python truthiness of a JSON-decoded value (`None`/`False`/`0`/`""`/`[]`/`{}` are falsy). -/
def truthy : Json → Bool
  | .null => false
  | .bool b => b
  | .num n => n != 0
  | .str s => s != ""
  | .arr xs => !xs.isEmpty
  | .obj kvs => !kvs.isEmpty

/-- `repr` of the corresponding Python value (as produced by `json.loads`). -/
def pyRepr : Json → String
  | .null => "None"
  | .bool true => "True"
  | .bool false => "False"
  | .num n => toString n
  | .str s => "\x27" ++ s ++ "\x27"
  | .arr xs => "[" ++ String.intercalate ", " (xs.attach.map (fun x => pyRepr x.1)) ++ "]"
  | .obj kvs =>
      "\x7b" ++
        String.intercalate ", "
          (kvs.attach.map (fun kv => "\x27" ++ kv.1.1 ++ "\x27: " ++ pyRepr kv.1.2)) ++
      "\x7d"
decreasing_by
  · have h := List.sizeOf_lt_of_mem x.2
    simp only [Json.arr.sizeOf_spec]
    omega
  · obtain ⟨⟨k, v⟩, hm⟩ := kv
    have h := List.sizeOf_lt_of_mem hm
    simp only [Prod.mk.sizeOf_spec] at h
    simp only [Json.obj.sizeOf_spec]
    omega

/-- `str` of the corresponding Python value (what an f-string interpolates). -/
def pyStr : Json → String
  | .str s => s
  | j => j.pyRepr

end Json

/-- Python dict lookup on an association list (JSON objects have unique keys). -/
def getKey (kvs : List (String × Json)) (k : String) : Option Json :=
  match kvs with
  | [] => none
  | (k2, v) :: rest => if k2 = k then some v else getKey rest k

/-- The exception classes the SDK code can raise or catch, as nodes of the
real Python class hierarchy.  `throomError`, `throomAPIError` and
`throomConnectionError` come from `exceptions.py`; the rest are builtins or
`requests.exceptions` classes. -/
inductive PyClass where
  | exception
  | throomError
  | throomAPIError
  | throomConnectionError
  | valueError
  | runtimeError
  | notImplementedError
  | attributeError
  | typeError
  | lookupError
  | keyError
  | indexError
  | requestException
  | timeout
  | connectError
  | invalidJSONError
  | jsonDecodeError
deriving Repr, DecidableEq

namespace PyClass

/-- The (linearised) superclass chain of each class, the class itself included.
`ThroomError(Exception)`; `ThroomAPIError(ThroomError)`;
`ThroomConnectionError(ThroomError)`; `Timeout(RequestException)`;
`requests.JSONDecodeError(InvalidJSONError, json.JSONDecodeError)` hence also
a `ValueError`. -/
def ancestors : PyClass → List PyClass
  | .exception => [.exception]
  | .throomError => [.throomError, .exception]
  | .throomAPIError => [.throomAPIError, .throomError, .exception]
  | .throomConnectionError => [.throomConnectionError, .throomError, .exception]
  | .valueError => [.valueError, .exception]
  | .runtimeError => [.runtimeError, .exception]
  | .notImplementedError => [.notImplementedError, .runtimeError, .exception]
  | .attributeError => [.attributeError, .exception]
  | .typeError => [.typeError, .exception]
  | .lookupError => [.lookupError, .exception]
  | .keyError => [.keyError, .lookupError, .exception]
  | .indexError => [.indexError, .lookupError, .exception]
  | .requestException => [.requestException, .exception]
  | .timeout => [.timeout, .requestException, .exception]
  | .connectError => [.connectError, .requestException, .exception]
  | .invalidJSONError => [.invalidJSONError, .requestException, .exception]
  | .jsonDecodeError =>
      [.jsonDecodeError, .invalidJSONError, .requestException, .valueError, .exception]

/-- `issubclass(c, d)`: whether an `except d` clause catches an exception of class `c`. -/
def isSubclassOf (c d : PyClass) : Bool := d ∈ c.ancestors

end PyClass

/-- A raised Python exception: its class, its `str()` message, and the
`status_code` attribute (set only by `ThroomAPIError.__init__`). -/
structure PyError where
  cls : PyClass
  msg : String
  status_code : Option Int := none
deriving Repr, DecidableEq

/-- Whether a generic `except ThroomError` handler would catch this exception. -/
def PyError.isThroomError (e : PyError) : Bool :=
  e.cls.isSubclassOf PyClass.throomError

/-- An HTTP response as the code observes it: status, raw body text
(`""` = empty body), and the JSON parse of the body (`none` = not valid JSON). -/
structure HttpResponse where
  status : Int
  content : String
  json : Option Json
deriving Repr

/-- Outcome of `self.session.request(...)`: either a response, or an exception
of some class (for transport failures: `Timeout`, `ConnectionError` alias
`connectError`, DNS errors — all `RequestException` subclasses). -/
inductive TransportResult where
  | ok : HttpResponse → TransportResult
  | raised : PyClass → String → TransportResult
deriving Repr

namespace ThroomClient

/-- `response.json()`: the parsed body, or a `requests.exceptions.JSONDecodeError`. -/
def responseJson (resp : HttpResponse) : Except PyError Json :=
  match resp.json with
  | some j => Except.ok j
  | none =>
      Except.error
        { cls := PyClass.jsonDecodeError,
          msg := "Expecting value: line 1 column 1 (char 0)" }

/-- `error_data.get("message") or error_data.get("error") or response.text`,
followed by f-string interpolation of the chosen value.  `error_data.get`
raises `AttributeError` when `error_data` is not a dict (a valid-JSON error
body that is not an object). -/
def extractMessage (error_data : Json) (text : String) : Except PyError String :=
  match error_data with
  | .obj kvs =>
      let m1 := (getKey kvs "message").getD Json.null
      let m2 := (getKey kvs "error").getD Json.null
      let chosen : Json := if m1.truthy then m1 else if m2.truthy then m2 else Json.str text
      Except.ok chosen.pyStr
  | other =>
      Except.error
        { cls := PyClass.attributeError,
          msg := "\x27" ++ other.pyRepr ++ "\x27 object has no attribute \x27get\x27" }

/-- Body of the `try:` block of `ThroomClient._request` (client.py lines 47-62):
perform the call, classify status >= 400 as a `ThroomAPIError`, return the
parsed body (or `None` for an empty body) on success. -/
def tryBody (t : TransportResult) : Except PyError (Option Json) :=
  match t with
  | .raised cls m => Except.error { cls := cls, msg := m }
  | .ok resp =>
      if 400 ≤ resp.status then
        match (if resp.content ≠ "" then responseJson resp else Except.ok (Json.obj [])) with
        | Except.error e => Except.error e
        | Except.ok error_data =>
            match extractMessage error_data resp.content with
            | Except.error e => Except.error e
            | Except.ok message =>
                Except.error
                  { cls := PyClass.throomAPIError,
                    msg := "Throome API Error (" ++ toString resp.status ++ "): " ++ message,
                    status_code := some resp.status }
      else
        if resp.content ≠ "" then
          match responseJson resp with
          | Except.error e => Except.error e
          | Except.ok j => Except.ok (some j)
        else Except.ok none

/-- `ThroomClient._request` (client.py lines 41-67): the `try:` body plus the
two handlers `except Timeout` and `except RequestException`, each re-raising
as `ThroomConnectionError`; any other exception propagates unchanged. -/
def request_ (t : TransportResult) : Except PyError (Option Json) :=
  match tryBody t with
  | Except.ok v => Except.ok v
  | Except.error e =>
      if e.cls.isSubclassOf PyClass.timeout then
        Except.error
          { cls := PyClass.throomConnectionError, msg := "Request timed out: " ++ e.msg }
      else if e.cls.isSubclassOf PyClass.requestException then
        Except.error
          { cls := PyClass.throomConnectionError, msg := "Connection error: " ++ e.msg }
      else Except.error e

end ThroomClient

/-- One HTTP request as issued by the client: method, path (relative to the
base URL), JSON body (`json=data`) and query parameters (`params=params`). -/
structure ReqSpec where
  method : String
  path : String
  body : Option Json := none
  params : Option (List (String × Json)) := none
deriving Repr

/-- The network, as a stream of outcomes: the n-th HTTP request performed
gets the n-th `TransportResult`. -/
def Net : Type := Nat → TransportResult

/-- A client computation: given the network and the index of the next
request, it produces a result (or a raised exception), the list of requests
it issued, and the next request index. -/
def Http (α : Type) : Type := Net → Nat → Except PyError α × List ReqSpec × Nat

namespace Http

def pure {α : Type} (a : α) : Http α := fun _ i => (Except.ok a, [], i)

def throw {α : Type} (e : PyError) : Http α := fun _ i => (Except.error e, [], i)

def liftExcept {α : Type} (x : Except PyError α) : Http α := fun _ i => (x, [], i)

def bind {α β : Type} (m : Http α) (f : α → Http β) : Http β := fun net i =>
  match m net i with
  | (Except.error e, rs, j) => (Except.error e, rs, j)
  | (Except.ok a, rs, j) =>
      match f a net j with
      | (r, rs2, k) => (r, rs ++ rs2, k)

end Http

/-- `self.session.request(...)` routed through `ThroomClient._request`:
issues one request and classifies its outcome. -/
def doRequest (r : ReqSpec) : Http (Option Json) :=
  fun net i => (ThroomClient.request_ (net i), [r], i + 1)

namespace Json

/-- Python subscription `j[k]` with a string key: dict lookup (`KeyError` when
missing), `TypeError` on any non-dict value. -/
def getItem (j : Json) (k : String) : Except PyError Json :=
  match j with
  | .obj kvs =>
      match getKey kvs k with
      | some v => Except.ok v
      | none => Except.error { cls := PyClass.keyError, msg := "\x27" ++ k ++ "\x27" }
  | _ =>
      Except.error
        { cls := PyClass.typeError, msg := "object is not subscriptable by str key" }

/-- Python subscription `j[0]` (used for `rows[0]`). -/
def index0 (j : Json) : Except PyError Json :=
  match j with
  | .arr (x :: _) => Except.ok x
  | .arr [] => Except.error { cls := PyClass.indexError, msg := "list index out of range" }
  | .str s =>
      match s.data with
      | c :: _ => Except.ok (.str (String.singleton c))
      | [] => Except.error { cls := PyClass.indexError, msg := "string index out of range" }
  | _ => Except.error { cls := PyClass.typeError, msg := "object is not subscriptable" }

end Json

/-- `data[k]` where `data` is the `Option Json` returned by `_request`
(`none` models Python `None` from an empty body). -/
def getItemOpt (data : Option Json) (k : String) : Except PyError Json :=
  match data with
  | none =>
      Except.error
        { cls := PyClass.typeError, msg := "\x27NoneType\x27 object is not subscriptable" }
  | some j => j.getItem k

/-- `data.get(k, dflt)`: dict `.get` with a default; `AttributeError` on
`None` or on a non-dict value. -/
def getOptDefault (data : Option Json) (k : String) (dflt : Json) : Except PyError Json :=
  match data with
  | some (.obj kvs) => Except.ok ((getKey kvs k).getD dflt)
  | some _ =>
      Except.error { cls := PyClass.attributeError, msg := "object has no attribute \x27get\x27" }
  | none =>
      Except.error
        { cls := PyClass.attributeError,
          msg := "\x27NoneType\x27 object has no attribute \x27get\x27" }

/-- Error-propagating map over a list, the semantics of a Python list
comprehension whose element expression may raise. -/
def mapExcept {α β : Type} (f : α → Except PyError β) : List α → Except PyError (List β)
  | [] => Except.ok []
  | x :: xs =>
      match f x with
      | Except.error e => Except.error e
      | Except.ok y =>
          match mapExcept f xs with
          | Except.error e => Except.error e
          | Except.ok ys => Except.ok (y :: ys)

/-! ## Data types from types.py

Python dataclasses do not enforce their field annotations: `Service(**s)`
stores whatever values the kwargs carry.  Response-record fields are
therefore modelled as raw `Json` values; only the caller-supplied
`ServiceConfig` has typed fields, since the SDK code itself reads them. -/

structure ServiceConfig where
  type : String
  provision : Bool
  port : Int
  host : Option String := none
  username : Option String := none
  password : Option String := none
  database : Option String := none
deriving Repr, DecidableEq

structure Service where
  name : Json
  type : Json
  host : Json
  port : Json
  healthy : Json
  username : Json := Json.null
  database : Json := Json.null
  container_id : Json := Json.null
deriving Repr

structure Cluster where
  id : Json
  name : Json
  created_at : Json
  services : List Service := []
deriving Repr

structure CreateClusterResponse where
  cluster_id : Json
  message : Json
deriving Repr

structure ActivityFilters where
  limit : Option Int := none
deriving Repr, DecidableEq

structure ActivityLog where
  id : Json
  timestamp : Json
  cluster_id : Json
  service_name : Json
  service_type : Json
  operation : Json
  command : Json
  parameters : Json
  duration : Json
  status : Json
  response : Json
  error : Json := Json.null
  client_info : Json := Json.null
deriving Repr

/-- `Service(**s)`: keyword construction of the `Service` dataclass.
Unexpected keywords and missing required arguments raise `TypeError`;
optional fields default to `None`. -/
def Service.fromKwargs (kvs : List (String × Json)) : Except PyError Service :=
  if kvs.all (fun kv =>
      ["name", "type", "host", "port", "healthy",
       "username", "database", "container_id"].contains kv.1) then
    match getKey kvs "name", getKey kvs "type", getKey kvs "host",
          getKey kvs "port", getKey kvs "healthy" with
    | some nm, some ty, some ho, some po, some he =>
        Except.ok
          { name := nm, type := ty, host := ho, port := po, healthy := he,
            username := (getKey kvs "username").getD Json.null,
            database := (getKey kvs "database").getD Json.null,
            container_id := (getKey kvs "container_id").getD Json.null }
    | _, _, _, _, _ =>
        Except.error
          { cls := PyClass.typeError,
            msg := "Service.__init__ missing a required positional argument" }
  else
    Except.error
      { cls := PyClass.typeError,
        msg := "Service.__init__ got an unexpected keyword argument" }

/-- One element of `[Service(**s) for s in ...]`: `**s` requires a mapping. -/
def parseServiceItem (s : Json) : Except PyError Service :=
  match s with
  | .obj kvs => Service.fromKwargs kvs
  | _ =>
      Except.error
        { cls := PyClass.typeError, msg := "Service() argument after ** must be a mapping" }

/-- `[Service(**s) for s in j]`: iterating a non-list JSON value raises. -/
def parseServiceList (j : Json) : Except PyError (List Service) :=
  match j with
  | .arr xs => mapExcept parseServiceItem xs
  | _ => Except.error { cls := PyClass.typeError, msg := "object is not iterable" }

/-- The `Cluster(id=data["id"], name=data["name"], created_at=data["created_at"],
services=[Service(**s) for s in data.get("services", [])])` construction shared
by `get_cluster` and (element-wise) `list_clusters`. -/
def parseCluster (data : Option Json) : Except PyError Cluster :=
  match getItemOpt data "id" with
  | Except.error e => Except.error e
  | Except.ok cid =>
  match getItemOpt data "name" with
  | Except.error e => Except.error e
  | Except.ok nm =>
  match getItemOpt data "created_at" with
  | Except.error e => Except.error e
  | Except.ok ca =>
  match getOptDefault data "services" (Json.arr []) with
  | Except.error e => Except.error e
  | Except.ok svjson =>
  match parseServiceList svjson with
  | Except.error e => Except.error e
  | Except.ok svs =>
      Except.ok { id := cid, name := nm, created_at := ca, services := svs }

/-- The list comprehension of `list_clusters`: one `Cluster` per element. -/
def parseClusterList (data : Option Json) : Except PyError (List Cluster) :=
  match data with
  | some (.arr xs) => mapExcept (fun c => parseCluster (some c)) xs
  | some _ => Except.error { cls := PyClass.typeError, msg := "object is not iterable" }
  | none =>
      Except.error
        { cls := PyClass.typeError, msg := "\x27NoneType\x27 object is not iterable" }

/-- `CreateClusterResponse(**data)`. -/
def parseCreateClusterResponse (data : Option Json) : Except PyError CreateClusterResponse :=
  match data with
  | some (.obj kvs) =>
      if kvs.all (fun kv => ["cluster_id", "message"].contains kv.1) then
        match getKey kvs "cluster_id", getKey kvs "message" with
        | some cid, some m => Except.ok { cluster_id := cid, message := m }
        | _, _ =>
            Except.error
              { cls := PyClass.typeError,
                msg := "CreateClusterResponse.__init__ missing a required positional argument" }
      else
        Except.error
          { cls := PyClass.typeError,
            msg := "CreateClusterResponse.__init__ got an unexpected keyword argument" }
  | _ =>
      Except.error
        { cls := PyClass.typeError,
          msg := "CreateClusterResponse() argument after ** must be a mapping" }

/-- `ActivityLog(**log)`. -/
def ActivityLog.fromKwargs (kvs : List (String × Json)) : Except PyError ActivityLog :=
  if kvs.all (fun kv =>
      ["id", "timestamp", "cluster_id", "service_name", "service_type", "operation",
       "command", "parameters", "duration", "status", "response",
       "error", "client_info"].contains kv.1) then
    if ["id", "timestamp", "cluster_id", "service_name", "service_type", "operation",
        "command", "parameters", "duration", "status", "response"].all
        (fun k => (getKey kvs k).isSome) then
      Except.ok
        { id := (getKey kvs "id").getD Json.null,
          timestamp := (getKey kvs "timestamp").getD Json.null,
          cluster_id := (getKey kvs "cluster_id").getD Json.null,
          service_name := (getKey kvs "service_name").getD Json.null,
          service_type := (getKey kvs "service_type").getD Json.null,
          operation := (getKey kvs "operation").getD Json.null,
          command := (getKey kvs "command").getD Json.null,
          parameters := (getKey kvs "parameters").getD Json.null,
          duration := (getKey kvs "duration").getD Json.null,
          status := (getKey kvs "status").getD Json.null,
          response := (getKey kvs "response").getD Json.null,
          error := (getKey kvs "error").getD Json.null,
          client_info := (getKey kvs "client_info").getD Json.null }
    else
      Except.error
        { cls := PyClass.typeError,
          msg := "ActivityLog.__init__ missing a required positional argument" }
  else
    Except.error
      { cls := PyClass.typeError,
        msg := "ActivityLog.__init__ got an unexpected keyword argument" }

/-- `[ActivityLog(**log) for log in data]`. -/
def parseActivityLogs (data : Option Json) : Except PyError (List ActivityLog) :=
  match data with
  | some (.arr xs) =>
      mapExcept
        (fun l =>
          match l with
          | .obj kvs => ActivityLog.fromKwargs kvs
          | _ =>
              Except.error
                { cls := PyClass.typeError,
                  msg := "ActivityLog() argument after ** must be a mapping" })
        xs
  | some _ => Except.error { cls := PyClass.typeError, msg := "object is not iterable" }
  | none =>
      Except.error
        { cls := PyClass.typeError, msg := "\x27NoneType\x27 object is not iterable" }

/-- `{"limit": filters.limit} if filters and filters.limit else None` —
the params expression repeated verbatim in `ThroomClient.get_activity`,
`ClusterClient.get_activity` and `ServiceClient.get_activity`.
An `ActivityFilters` instance is always truthy; `filters.limit` is truthy
iff it is neither `None` nor `0`. -/
def activityLimitParams (filters : Option ActivityFilters) : Option (List (String × Json)) :=
  match filters with
  | none => none
  | some f =>
      match f.limit with
      | none => none
      | some l => if l = 0 then none else some [("limit", Json.num l)]

/-- Serialization of one `ServiceConfig` in the payload of `create_cluster`
(client.py lines 101-110): every key is always present; an unset optional
field is serialized from Python `None`, i.e. as JSON `null`. -/
def optJson : Option String → Json
  | none => Json.null
  | some s => Json.str s

def serviceConfigPairs (config : ServiceConfig) : List (String × Json) :=
  [("type", Json.str config.type),
   ("port", Json.num config.port),
   ("host", optJson config.host),
   ("username", optJson config.username),
   ("password", optJson config.password),
   ("database", optJson config.database)]

/-- The `{"name": name, "services": services_dict}` body POSTed by
`create_cluster`; `services` models the insertion-ordered Python dict. -/
def createClusterBody (name : String) (services : List (String × ServiceConfig)) : Json :=
  Json.obj
    [("name", Json.str name),
     ("services",
      Json.obj (services.map (fun nc => (nc.1, Json.obj (serviceConfigPairs nc.2)))))]

namespace ThroomClient

/-- `ThroomClient.get_cluster` (client.py lines 87-95). -/
def get_cluster (cluster_id : String) : Http Cluster :=
  Http.bind (doRequest { method := "GET", path := "/api/v1/clusters/" ++ cluster_id })
    (fun data => Http.liftExcept (parseCluster data))

/-- `ThroomClient.list_clusters` (client.py lines 74-85). -/
def list_clusters : Http (List Cluster) :=
  Http.bind (doRequest { method := "GET", path := "/api/v1/clusters" })
    (fun data => Http.liftExcept (parseClusterList data))

/-- `ThroomClient.create_cluster` (client.py lines 97-113). -/
def create_cluster (name : String) (services : List (String × ServiceConfig)) :
    Http CreateClusterResponse :=
  Http.bind
    (doRequest
      { method := "POST", path := "/api/v1/clusters",
        body := some (createClusterBody name services) })
    (fun data => Http.liftExcept (parseCreateClusterResponse data))

/-- `ThroomClient.get_activity` (client.py lines 119-123). -/
def get_activity (filters : Option ActivityFilters) : Http (List ActivityLog) :=
  Http.bind
    (doRequest
      { method := "GET", path := "/api/v1/activity", params := activityLimitParams filters })
    (fun data => Http.liftExcept (parseActivityLogs data))

end ThroomClient

namespace ClusterClient

/-- `ClusterClient.get_activity` (client.py lines 150-156). -/
def get_activity (cluster_id : String) (filters : Option ActivityFilters) :
    Http (List ActivityLog) :=
  Http.bind
    (doRequest
      { method := "GET", path := "/api/v1/clusters/" ++ cluster_id ++ "/activity",
        params := activityLimitParams filters })
    (fun data => Http.liftExcept (parseActivityLogs data))

end ClusterClient

namespace ServiceClient

/-- `ServiceClient.get_activity` (client.py lines 208-216). -/
def get_activity (cluster_id : String) (service_name : String)
    (filters : Option ActivityFilters) : Http (List ActivityLog) :=
  Http.bind
    (doRequest
      { method := "GET",
        path := "/api/v1/clusters/" ++ cluster_id ++ "/services/" ++ service_name ++ "/activity",
        params := activityLimitParams filters })
    (fun data => Http.liftExcept (parseActivityLogs data))

end ServiceClient

namespace DBClient

/-- `DBClient.query` (client.py lines 235-241): POST `{query, args}`, then
`data["rows"]`. -/
def query (cluster_id : String) (query_text : String) (args : List Json) : Http Json :=
  Http.bind
    (doRequest
      { method := "POST", path := "/api/v1/clusters/" ++ cluster_id ++ "/db/query",
        body := some (Json.obj [("query", Json.str query_text), ("args", Json.arr args)]) })
    (fun data => Http.liftExcept (getItemOpt data "rows"))

/-- `DBClient.query_row` (client.py lines 243-248): one `query` call; raise
`ValueError("No rows returned")` on a falsy result, else `rows[0]`. -/
def query_row (cluster_id : String) (query_text : String) (args : List Json) : Http Json :=
  Http.bind (query cluster_id query_text args)
    (fun rows =>
      if rows.truthy then Http.liftExcept rows.index0
      else Http.throw { cls := PyClass.valueError, msg := "No rows returned" })

end DBClient

namespace QueueClient

/-- `QueueClient.publish` (client.py lines 293-299): POST
`{"topic": topic, "message": list(message)}`; `list(message)` turns the
bytes into a list of ints 0-255. -/
def publish (cluster_id : String) (topic : String) (message : List (Fin 256)) : Http Unit :=
  Http.bind
    (doRequest
      { method := "POST", path := "/api/v1/clusters/" ++ cluster_id ++ "/queue/publish",
        body := some (Json.obj
          [("topic", Json.str topic),
           ("message", Json.arr (message.map (fun b => Json.num (b.val : Int))))]) })
    (fun _ => Http.pure ())

/-- `QueueClient.subscribe` (client.py lines 301-303): unconditionally
`raise NotImplementedError(...)` before any request is built. -/
def subscribe {α : Type} (cluster_id : String) (topic : String) (handler : α) : Http Unit :=
  Http.throw
    { cls := PyClass.notImplementedError,
      msg := "Subscribe not yet implemented in SDK - use direct Kafka consumer" }

end QueueClient

/-! ## Helper lemmas -/

theorem request_ok_of_success_json (resp : HttpResponse) (j : Json)
    (hst : resp.status < 400) (hc : resp.content ≠ "") (hj : resp.json = some j) :
    ThroomClient.request_ (TransportResult.ok resp) = Except.ok (some j) := by
  have h4 : ¬ (400 ≤ resp.status) := by omega
  simp only [ThroomClient.request_, ThroomClient.tryBody, ThroomClient.responseJson,
    if_neg h4, if_pos hc, hj]

theorem request_ok_of_success_empty (resp : HttpResponse)
    (hst : resp.status < 400) (hc : resp.content = "") :
    ThroomClient.request_ (TransportResult.ok resp) = Except.ok none := by
  have h4 : ¬ (400 ≤ resp.status) := by omega
  have hc2 : ¬ (resp.content ≠ "") := by simp [hc]
  simp only [ThroomClient.request_, ThroomClient.tryBody, if_neg h4, if_neg hc2]

theorem bind_doRequest_liftExcept {α : Type} (r : ReqSpec)
    (g : Option Json → Except PyError α) (net : Net) (i : Nat) :
    Http.bind (doRequest r) (fun d => Http.liftExcept (g d)) net i =
      ((match ThroomClient.request_ (net i) with
        | Except.error e => Except.error e
        | Except.ok d => g d), [r], i + 1) := by
  unfold Http.bind doRequest Http.liftExcept
  cases ThroomClient.request_ (net i) <;> simp

/-! ## Claim theorems -/

/-- C2 counterexample: a 500 response whose non-empty body is not valid JSON
does not surface as an APIError with the raw text as message — `response.json()`
raises a `JSONDecodeError`, which the `except RequestException` clause turns
into a `ThroomConnectionError`. -/
theorem error_status_nonjson_body_not_api_error :
    ThroomClient.request_
        (TransportResult.ok { status := 500, content := "Internal Server Error", json := none }) =
      Except.error
        { cls := PyClass.throomConnectionError,
          msg := "Connection error: Expecting value: line 1 column 1 (char 0)" } ∧
    PyClass.throomConnectionError ≠ PyClass.throomAPIError :=
  ⟨rfl, by decide⟩

/-- C2 (amended): on a status >= 400 response whose body is empty or parses to
a JSON object, `_request` raises a `ThroomAPIError` carrying that status code
and the non-empty message "Throome API Error (status): " followed by the
extracted message (`message` field, else `error` field, else the raw text);
in particular a 404 on `get_cluster` surfaces that way.  A non-empty body
that is not valid JSON instead surfaces as a connection error (see the
counterexample). -/
theorem request_error_status_api_error
    (resp : HttpResponse) (kvs : List (String × Json)) (m : String)
    (net : Net) (i : Nat) (hst : 400 ≤ resp.status) :
    (resp.content = "" →
      ThroomClient.request_ (TransportResult.ok resp) =
        Except.error
          { cls := PyClass.throomAPIError,
            msg := "Throome API Error (" ++ toString resp.status ++ "): " ++ resp.content,
            status_code := some resp.status }) ∧
    (resp.content ≠ "" → resp.json = some (Json.obj kvs) →
      ThroomClient.extractMessage (Json.obj kvs) resp.content = Except.ok m →
      ThroomClient.request_ (TransportResult.ok resp) =
        Except.error
          { cls := PyClass.throomAPIError,
            msg := "Throome API Error (" ++ toString resp.status ++ "): " ++ m,
            status_code := some resp.status }) ∧
    ("Throome API Error (" ++ toString resp.status ++ "): " ++ m ≠ "") ∧
    (net i = TransportResult.ok { status := 404, content := "", json := none } →
      (ThroomClient.get_cluster "missing-id" net i).1 =
        Except.error
          { cls := PyClass.throomAPIError,
            msg := "Throome API Error (" ++ toString (404 : Int) ++ "): " ++ "",
            status_code := some 404 }) := by
  refine ⟨?_, ?_, ?_, ?_⟩
  · intro hc
    have hc2 : ¬ (resp.content ≠ "") := by simp [hc]
    simp only [ThroomClient.request_, ThroomClient.tryBody, if_pos hst, if_neg hc2]
    simp only [ThroomClient.extractMessage, getKey, Json.truthy, Json.pyStr, hc]
    rfl
  · intro hc hj hm
    simp only [ThroomClient.request_, ThroomClient.tryBody, if_pos hst, if_pos hc,
      ThroomClient.responseJson, hj, hm]
    rfl
  · intro h
    have h2 := congrArg String.length h
    have e0 : ("" : String).length = 0 := rfl
    simp only [String.length_append, e0] at h2
    have h3 : (0 : Nat) < "Throome API Error (".length := by decide
    omega
  · intro hnet
    simp only [ThroomClient.get_cluster]
    rw [bind_doRequest_liftExcept, hnet]
    rfl

/-- C2 witness. -/
theorem request_error_status_api_error_witness :
    (400 : Int) ≤ 404 ∧
    ThroomClient.request_ (TransportResult.ok { status := 404, content := "", json := none }) =
      Except.error
        { cls := PyClass.throomAPIError,
          msg := "Throome API Error (" ++ toString (404 : Int) ++ "): " ++ "",
          status_code := some 404 } :=
  ⟨by decide,
   (request_error_status_api_error { status := 404, content := "", json := none } [] ""
      (fun _ => TransportResult.ok { status := 404, content := "", json := none }) 0
      (by decide)).1 rfl⟩

/-- C3: every transport-level failure — any exception of a
`RequestException` subclass raised by `session.request`, Timeout and
connection/DNS errors included — is re-raised as a `ThroomConnectionError`
wrapping the message of the cause; it is a `ThroomError`, and never a
`ThroomAPIError`. -/
theorem transport_failure_raises_connection_error
    (cls : PyClass) (m : String)
    (h : cls.isSubclassOf PyClass.requestException = true) :
    ThroomClient.request_ (TransportResult.raised cls m) =
      Except.error
        { cls := PyClass.throomConnectionError,
          msg := (if cls.isSubclassOf PyClass.timeout then "Request timed out: "
                  else "Connection error: ") ++ m } ∧
    PyError.isThroomError
        { cls := PyClass.throomConnectionError,
          msg := (if cls.isSubclassOf PyClass.timeout then "Request timed out: "
                  else "Connection error: ") ++ m } = true ∧
    PyClass.throomConnectionError ≠ PyClass.throomAPIError := by
  refine ⟨?_, rfl, by decide⟩
  simp only [ThroomClient.request_, ThroomClient.tryBody]
  by_cases ht : cls.isSubclassOf PyClass.timeout = true
  · simp [ht]
  · simp [ht, h]

/-- C3 witness. -/
theorem transport_failure_raises_connection_error_witness :
    PyClass.isSubclassOf PyClass.timeout PyClass.requestException = true ∧
    ThroomClient.request_ (TransportResult.raised PyClass.timeout "read timed out") =
      Except.error
        { cls := PyClass.throomConnectionError,
          msg := (if PyClass.isSubclassOf PyClass.timeout PyClass.timeout
                  then "Request timed out: " else "Connection error: ") ++ "read timed out" } :=
  ⟨by decide,
   (transport_failure_raises_connection_error PyClass.timeout "read timed out" (by decide)).1⟩

/-- C8: `subscribe` raises `NotImplementedError` (a `RuntimeError` subclass)
immediately, for any arguments, issuing no HTTP request. -/
theorem subscribe_not_implemented_no_request
    {α : Type} (cluster_id topic : String) (handler : α) (net : Net) (i : Nat) :
    QueueClient.subscribe cluster_id topic handler net i =
      (Except.error
        { cls := PyClass.notImplementedError,
          msg := "Subscribe not yet implemented in SDK - use direct Kafka consumer" },
       [], i) ∧
    PyClass.isSubclassOf PyClass.notImplementedError PyClass.runtimeError = true :=
  ⟨rfl, by decide⟩

/-- C9: on a success status, an empty body yields `Except.ok none` (Python
`None`, the explicit no-content result), and a valid-JSON body yields the
parsed value unchanged. -/
theorem request_success_body_handling
    (resp : HttpResponse) (j : Json) (hst : resp.status < 400) :
    (resp.content = "" → ThroomClient.request_ (TransportResult.ok resp) = Except.ok none) ∧
    (resp.content ≠ "" → resp.json = some j →
      ThroomClient.request_ (TransportResult.ok resp) = Except.ok (some j)) :=
  ⟨fun hc => request_ok_of_success_empty resp hst hc,
   fun hc hj => request_ok_of_success_json resp j hst hc hj⟩

/-- C9 witness. -/
theorem request_success_body_handling_witness :
    (200 : Int) < 400 ∧
    ThroomClient.request_ (TransportResult.ok { status := 200, content := "", json := none }) =
      Except.ok none :=
  ⟨by decide,
   (request_success_body_handling { status := 200, content := "", json := none } Json.null
      (by decide)).1 rfl⟩

/-- C1 counterexample: for a `ServiceConfig` with no host set, the serialized
service entry still contains a "host" key, bound to JSON `null` — the field is
not omitted and a null placeholder is emitted. -/
theorem create_cluster_unset_host_emits_null :
    getKey (serviceConfigPairs { type := "postgres", provision := true, port := 5432 }) "host" =
      some Json.null ∧
    (some Json.null ≠ (none : Option Json)) :=
  ⟨rfl, by simp⟩

/-- C1 (amended): `create_cluster` serializes every service entry with all six
keys type/port/host/username/password/database always present, in that order;
an optional field left unset by the caller is emitted as an explicit JSON
`null` (Python `None`), and a set field as its string value. -/
theorem create_cluster_payload_always_all_fields
    (name : String) (services : List (String × ServiceConfig)) (config : ServiceConfig)
    (net : Net) (i : Nat) :
    ((ThroomClient.create_cluster name services net i).2.1 =
      [{ method := "POST", path := "/api/v1/clusters",
         body := some (createClusterBody name services) }]) ∧
    (serviceConfigPairs config).map Prod.fst =
      ["type", "port", "host", "username", "password", "database"] ∧
    getKey (serviceConfigPairs config) "host" = some (optJson config.host) ∧
    getKey (serviceConfigPairs config) "username" = some (optJson config.username) ∧
    getKey (serviceConfigPairs config) "password" = some (optJson config.password) ∧
    getKey (serviceConfigPairs config) "database" = some (optJson config.database) ∧
    (config.host = none → optJson config.host = Json.null) ∧
    (∀ s, config.host = some s → optJson config.host = Json.str s) ∧
    (config.username = none → optJson config.username = Json.null) ∧
    (config.password = none → optJson config.password = Json.null) ∧
    (config.database = none → optJson config.database = Json.null) := by
  refine ⟨?_, by simp [serviceConfigPairs], rfl, rfl, rfl, rfl,
    ?_, ?_, ?_, ?_, ?_⟩
  · simp only [ThroomClient.create_cluster]
    rw [bind_doRequest_liftExcept]
  · intro h; rw [h]; rfl
  · intro s h; rw [h]; rfl
  · intro h; rw [h]; rfl
  · intro h; rw [h]; rfl
  · intro h; rw [h]; rfl

/-- C1 witness. -/
theorem create_cluster_payload_always_all_fields_witness :
    ({ type := "postgres", provision := true, port := 5432 : ServiceConfig }.host = none) ∧
    optJson ({ type := "postgres", provision := true, port := 5432 : ServiceConfig }.host) =
      Json.null := by
  have h := create_cluster_payload_always_all_fields "c" []
    { type := "postgres", provision := true, port := 5432 }
    (fun _ => TransportResult.raised PyClass.timeout "t") 0
  exact ⟨rfl, h.2.2.2.2.2.2.1 rfl⟩

/-- C5: all three `get_activity` variants issue exactly one GET whose `limit`
query parameter is `activityLimitParams filters`: omitted (`none`) when no
filter is given or the limit of the filter is `None` or `0`, and passed through
unchanged as `limit` when a positive value is given. -/
theorem get_activity_limit_param
    (filters : Option ActivityFilters) (cluster_id service_name : String)
    (net : Net) (i : Nat) (l : Int) :
    ((ThroomClient.get_activity filters net i).2.1 =
       [{ method := "GET", path := "/api/v1/activity",
          params := activityLimitParams filters }]) ∧
    ((ClusterClient.get_activity cluster_id filters net i).2.1 =
       [{ method := "GET", path := "/api/v1/clusters/" ++ cluster_id ++ "/activity",
          params := activityLimitParams filters }]) ∧
    ((ServiceClient.get_activity cluster_id service_name filters net i).2.1 =
       [{ method := "GET",
          path := "/api/v1/clusters/" ++ cluster_id ++ "/services/" ++ service_name ++ "/activity",
          params := activityLimitParams filters }]) ∧
    activityLimitParams none = none ∧
    activityLimitParams (some { limit := none }) = none ∧
    activityLimitParams (some { limit := some 0 }) = none ∧
    (0 < l → activityLimitParams (some { limit := some l }) = some [("limit", Json.num l)]) := by
  refine ⟨?_, ?_, ?_, rfl, rfl, rfl, ?_⟩
  · simp only [ThroomClient.get_activity]
    rw [bind_doRequest_liftExcept]
  · simp only [ClusterClient.get_activity]
    rw [bind_doRequest_liftExcept]
  · simp only [ServiceClient.get_activity]
    rw [bind_doRequest_liftExcept]
  · intro hl
    simp only [activityLimitParams]
    rw [if_neg (by omega)]

/-- C5 witness. -/
theorem get_activity_limit_param_witness :
    (0 : Int) < 50 ∧
    activityLimitParams (some { limit := some 50 }) = some [("limit", Json.num 50)] := by
  have h := get_activity_limit_param none "c" "s"
    (fun _ => TransportResult.raised PyClass.timeout "t") 0 50
  exact ⟨by decide, h.2.2.2.2.2.2 (by decide)⟩

/-- C7: `publish` issues one POST where the `message` field of the body is the plain
array of the byte values of the input: same length, same order, every element an
integer between 0 and 255. -/
theorem publish_serializes_bytes
    (cluster_id topic : String) (message : List (Fin 256)) (net : Net) (i j : Nat) :
    ((QueueClient.publish cluster_id topic message net i).2.1 =
      [{ method := "POST", path := "/api/v1/clusters/" ++ cluster_id ++ "/queue/publish",
         body := some (Json.obj
           [("topic", Json.str topic),
            ("message", Json.arr (message.map (fun b => Json.num (b.val : Int))))]) }]) ∧
    (message.map (fun b => Json.num (b.val : Int))).length = message.length ∧
    (message.map (fun b => Json.num (b.val : Int)))[j]? =
      (message[j]?).map (fun b => Json.num (b.val : Int)) ∧
    (∀ b : Fin 256, b ∈ message → 0 ≤ (b.val : Int) ∧ (b.val : Int) ≤ 255) := by
  refine ⟨?_, by simp, by simp, ?_⟩
  · simp only [QueueClient.publish, Http.bind, doRequest, Http.pure]
    cases ThroomClient.request_ (net i) <;> simp
  · intro b _
    have hb := b.isLt
    omega

/-- C7 witness. -/
theorem publish_serializes_bytes_witness :
    ((7 : Fin 256) ∈ [(7 : Fin 256), 255]) ∧
    0 ≤ (((7 : Fin 256)).val : Int) ∧ (((7 : Fin 256)).val : Int) ≤ 255 := by
  have h := publish_serializes_bytes "c1" "t" [(7 : Fin 256), 255]
    (fun _ => TransportResult.raised PyClass.timeout "t") 0 0
  exact ⟨by decide, h.2.2.2 7 (by decide)⟩

theorem mapExcept_ok_length {α β : Type} (f : α → Except PyError β) :
    ∀ (xs : List α) (ys : List β), mapExcept f xs = Except.ok ys → ys.length = xs.length := by
  intro xs
  induction xs with
  | nil =>
      intro ys h
      simp only [mapExcept] at h
      cases h
      rfl
  | cons x xs ih =>
      intro ys h
      cases hf : f x with
      | error e => simp [mapExcept, hf] at h
      | ok y =>
          cases hr : mapExcept f xs with
          | error e => simp [mapExcept, hf, hr] at h
          | ok ys2 =>
              simp only [mapExcept, hf, hr] at h
              cases h
              simp [ih ys2 hr]

theorem mapExcept_ok_getElem {α β : Type} (f : α → Except PyError β) :
    ∀ (xs : List α) (ys : List β), mapExcept f xs = Except.ok ys →
      ∀ j : Nat, (xs[j]?).map f = (ys[j]?).map Except.ok := by
  intro xs
  induction xs with
  | nil =>
      intro ys h j
      simp only [mapExcept] at h
      cases h
      simp
  | cons x xs ih =>
      intro ys h j
      cases hf : f x with
      | error e => simp [mapExcept, hf] at h
      | ok y =>
          cases hr : mapExcept f xs with
          | error e => simp [mapExcept, hf, hr] at h
          | ok ys2 =>
              simp only [mapExcept, hf, hr] at h
              cases h
              cases j with
              | zero => simp [hf]
              | succ n => simpa using ih ys2 hr n

theorem dbQuery_result (cluster_id query_text : String) (args : List Json)
    (net : Net) (i : Nat) (resp : HttpResponse) (rows : List Json)
    (hnet : net i = TransportResult.ok resp) (hst : resp.status < 400) (hc : resp.content ≠ "")
    (hj : resp.json = some (Json.obj [("rows", Json.arr rows)])) :
    DBClient.query cluster_id query_text args net i =
      (Except.ok (Json.arr rows),
       [{ method := "POST", path := "/api/v1/clusters/" ++ cluster_id ++ "/db/query",
          body := some (Json.obj [("query", Json.str query_text), ("args", Json.arr args)]) }],
       i + 1) := by
  simp only [DBClient.query]
  rw [bind_doRequest_liftExcept, hnet, request_ok_of_success_json resp _ hst hc hj]
  simp [getItemOpt, Json.getItem, getKey]

theorem query_row_result_empty (cluster_id query_text : String) (args : List Json)
    (net : Net) (i : Nat) (resp : HttpResponse)
    (hnet : net i = TransportResult.ok resp) (hst : resp.status < 400) (hc : resp.content ≠ "")
    (hj : resp.json = some (Json.obj [("rows", Json.arr [])])) :
    DBClient.query_row cluster_id query_text args net i =
      (Except.error { cls := PyClass.valueError, msg := "No rows returned" },
       [{ method := "POST", path := "/api/v1/clusters/" ++ cluster_id ++ "/db/query",
          body := some (Json.obj [("query", Json.str query_text), ("args", Json.arr args)]) }],
       i + 1) := by
  have hq := dbQuery_result cluster_id query_text args net i resp [] hnet hst hc hj
  simp only [DBClient.query_row, Http.bind]
  rw [hq]
  simp [Json.truthy, Http.throw]

/-- C4: `query_row` performs exactly the one POST of the underlying `query`;
on zero rows it raises the local `ValueError("No rows returned")`, which
carries no status code, and on one or more rows it returns exactly the first
row unaltered. -/
theorem query_row_empty_iff_first_row
    (cluster_id query_text : String) (args : List Json)
    (net : Net) (i : Nat) (resp : HttpResponse) (rows : List Json)
    (hnet : net i = TransportResult.ok resp)
    (hst : resp.status < 400) (hc : resp.content ≠ "")
    (hj : resp.json = some (Json.obj [("rows", Json.arr rows)])) :
    (rows = [] →
      DBClient.query_row cluster_id query_text args net i =
        (Except.error { cls := PyClass.valueError, msg := "No rows returned" },
         [{ method := "POST", path := "/api/v1/clusters/" ++ cluster_id ++ "/db/query",
            body := some (Json.obj [("query", Json.str query_text), ("args", Json.arr args)]) }],
         i + 1)) ∧
    (∀ r rest, rows = r :: rest →
      DBClient.query_row cluster_id query_text args net i =
        (Except.ok r,
         [{ method := "POST", path := "/api/v1/clusters/" ++ cluster_id ++ "/db/query",
            body := some (Json.obj [("query", Json.str query_text), ("args", Json.arr args)]) }],
         i + 1)) ∧
    PyError.status_code { cls := PyClass.valueError, msg := "No rows returned" } = none := by
  refine ⟨?_, ?_, rfl⟩
  · intro h0
    subst h0
    exact query_row_result_empty cluster_id query_text args net i resp hnet hst hc hj
  · intro r rest h0
    subst h0
    have hq := dbQuery_result cluster_id query_text args net i resp (r :: rest) hnet hst hc hj
    simp only [DBClient.query_row, Http.bind]
    rw [hq]
    simp [Json.truthy, Http.liftExcept, Json.index0]

/-- C4 witness. -/
theorem query_row_empty_iff_first_row_witness :
    DBClient.query_row "c1" "SELECT 1" []
        (fun _ => TransportResult.ok
          { status := 200, content := "x", json := some (Json.obj [("rows", Json.arr [])]) }) 0 =
      (Except.error { cls := PyClass.valueError, msg := "No rows returned" },
       [{ method := "POST", path := "/api/v1/clusters/" ++ "c1" ++ "/db/query",
          body := some (Json.obj [("query", Json.str "SELECT 1"), ("args", Json.arr [])]) }],
       0 + 1) :=
  (query_row_empty_iff_first_row "c1" "SELECT 1" []
      (fun _ => TransportResult.ok
        { status := 200, content := "x", json := some (Json.obj [("rows", Json.arr [])]) }) 0
      { status := 200, content := "x", json := some (Json.obj [("rows", Json.arr [])]) } []
      rfl (by decide) (by decide) rfl).1 rfl

/-- C6: a gateway cluster JSON object whose `services` field holds N service
objects (each parsing to a `Service`) yields, through the shared `Cluster`
construction of `get_cluster` and `list_clusters`, a `Cluster` whose
`services` list has exactly N parsed `Service` records in input order. -/
theorem cluster_parse_preserves_services
    (kvs : List (String × Json)) (cid nm ca : Json) (ss : List Json) (svs : List Service)
    (cluster_id : String) (net : Net) (i : Nat) (resp : HttpResponse)
    (h1 : getKey kvs "id" = some cid) (h2 : getKey kvs "name" = some nm)
    (h3 : getKey kvs "created_at" = some ca)
    (h4 : getKey kvs "services" = some (Json.arr ss))
    (h5 : mapExcept parseServiceItem ss = Except.ok svs)
    (hnet : net i = TransportResult.ok resp) (hst : resp.status < 400)
    (hc : resp.content ≠ "") (hj : resp.json = some (Json.obj kvs)) :
    parseCluster (some (Json.obj kvs)) =
      Except.ok { id := cid, name := nm, created_at := ca, services := svs } ∧
    svs.length = ss.length ∧
    (∀ j : Nat, (ss[j]?).map parseServiceItem = (svs[j]?).map Except.ok) ∧
    (ThroomClient.get_cluster cluster_id net i).1 =
      Except.ok { id := cid, name := nm, created_at := ca, services := svs } ∧
    parseClusterList (some (Json.arr [Json.obj kvs])) =
      Except.ok [{ id := cid, name := nm, created_at := ca, services := svs }] := by
  have hparse : parseCluster (some (Json.obj kvs)) =
      Except.ok { id := cid, name := nm, created_at := ca, services := svs } := by
    simp [parseCluster, getItemOpt, Json.getItem, getOptDefault, parseServiceList,
      h1, h2, h3, h4, h5]
  refine ⟨hparse, mapExcept_ok_length parseServiceItem ss svs h5,
    mapExcept_ok_getElem parseServiceItem ss svs h5, ?_, ?_⟩
  · simp only [ThroomClient.get_cluster]
    rw [bind_doRequest_liftExcept, hnet, request_ok_of_success_json resp _ hst hc hj]
    simpa using hparse
  · simp [parseClusterList, mapExcept, hparse]

/-- C6 witness. -/
theorem cluster_parse_preserves_services_witness :
    parseCluster (some (Json.obj
        [("id", Json.str "c1"), ("name", Json.str "demo"), ("created_at", Json.str "now"),
         ("services", Json.arr
           [Json.obj [("name", Json.str "db"), ("type", Json.str "postgres"),
                      ("host", Json.str "localhost"), ("port", Json.num 5432),
                      ("healthy", Json.bool true)]])])) =
      Except.ok
        { id := Json.str "c1", name := Json.str "demo", created_at := Json.str "now",
          services :=
            [{ name := Json.str "db", type := Json.str "postgres",
               host := Json.str "localhost", port := Json.num 5432,
               healthy := Json.bool true }] } :=
  (cluster_parse_preserves_services
      [("id", Json.str "c1"), ("name", Json.str "demo"), ("created_at", Json.str "now"),
       ("services", Json.arr
         [Json.obj [("name", Json.str "db"), ("type", Json.str "postgres"),
                    ("host", Json.str "localhost"), ("port", Json.num 5432),
                    ("healthy", Json.bool true)]])]
      (Json.str "c1") (Json.str "demo") (Json.str "now")
      [Json.obj [("name", Json.str "db"), ("type", Json.str "postgres"),
                 ("host", Json.str "localhost"), ("port", Json.num 5432),
                 ("healthy", Json.bool true)]]
      [{ name := Json.str "db", type := Json.str "postgres",
         host := Json.str "localhost", port := Json.num 5432,
         healthy := Json.bool true }]
      "c1"
      (fun _ => TransportResult.ok
        { status := 200, content := "x",
          json := some (Json.obj
            [("id", Json.str "c1"), ("name", Json.str "demo"), ("created_at", Json.str "now"),
             ("services", Json.arr
               [Json.obj [("name", Json.str "db"), ("type", Json.str "postgres"),
                          ("host", Json.str "localhost"), ("port", Json.num 5432),
                          ("healthy", Json.bool true)]])]) })
      0
      { status := 200, content := "x",
        json := some (Json.obj
          [("id", Json.str "c1"), ("name", Json.str "demo"), ("created_at", Json.str "now"),
           ("services", Json.arr
             [Json.obj [("name", Json.str "db"), ("type", Json.str "postgres"),
                        ("host", Json.str "localhost"), ("port", Json.num 5432),
                        ("healthy", Json.bool true)]])]) }
      rfl rfl rfl rfl rfl rfl (by decide) (by decide) rfl).1

/-- C10: the local `ValueError` raised by `query_row` on an empty result and
the `NotImplementedError` raised by `subscribe` are not `ThroomError`
instances — a generic `except ThroomError` handler does not catch them —
while `ThroomAPIError` and `ThroomConnectionError` values are. -/
theorem local_errors_not_throom_base
    {α : Type} (cluster_id query_text topic : String) (args : List Json) (handler : α)
    (net : Net) (i : Nat) (resp : HttpResponse)
    (hnet : net i = TransportResult.ok resp) (hst : resp.status < 400) (hc : resp.content ≠ "")
    (hj : resp.json = some (Json.obj [("rows", Json.arr [])])) :
    (DBClient.query_row cluster_id query_text args net i).1 =
      Except.error { cls := PyClass.valueError, msg := "No rows returned" } ∧
    (QueueClient.subscribe cluster_id topic handler net i).1 =
      Except.error
        { cls := PyClass.notImplementedError,
          msg := "Subscribe not yet implemented in SDK - use direct Kafka consumer" } ∧
    PyError.isThroomError { cls := PyClass.valueError, msg := "No rows returned" } = false ∧
    PyError.isThroomError
        { cls := PyClass.notImplementedError,
          msg := "Subscribe not yet implemented in SDK - use direct Kafka consumer" } = false ∧
    (∀ (m : String) (sc : Option Int),
      PyError.isThroomError { cls := PyClass.throomAPIError, msg := m, status_code := sc } =
        true) ∧
    (∀ m : String,
      PyError.isThroomError { cls := PyClass.throomConnectionError, msg := m } = true) := by
  refine ⟨?_, rfl, rfl, rfl, fun m sc => rfl, fun m => rfl⟩
  rw [query_row_result_empty cluster_id query_text args net i resp hnet hst hc hj]

/-- C10 witness. -/
theorem local_errors_not_throom_base_witness :
    (DBClient.query_row "c1" "SELECT 1" []
        (fun _ => TransportResult.ok
          { status := 200, content := "x",
            json := some (Json.obj [("rows", Json.arr [])]) }) 0).1 =
      Except.error { cls := PyClass.valueError, msg := "No rows returned" } ∧
    PyError.isThroomError { cls := PyClass.valueError, msg := "No rows returned" } = false := by
  have h := local_errors_not_throom_base "c1" "SELECT 1" "topic" [] ()
    (fun _ => TransportResult.ok
      { status := 200, content := "x", json := some (Json.obj [("rows", Json.arr [])]) }) 0
    { status := 200, content := "x", json := some (Json.obj [("rows", Json.arr [])]) }
    rfl (by decide) (by decide) rfl
  exact ⟨h.1, h.2.2.1⟩
